import Mathlib

/-!
Verification of the ReviewLens frontend stream client and report components,
together with spec-modelled fragments of the backend analytic engines that are
not part of the checked-in sources.

The embedding follows the TypeScript sources:
- `frontend/hooks/useReportStream.ts` (SSE frame handling, cancel)
- `frontend/components/ProgressStream.tsx` (latest message display)
- `frontend/components/ScoreCard.tsx` (risk colors)
- `frontend/components/SentimentTimeline.tsx` (min-data guard)
- `frontend/components/ThemeClusters.tsx` (sorting of clusters)
- `frontend/components/RatingDistribution.tsx` (distribution totals)
- `frontend/app/report/[jobId]/page.tsx` and the home page (submit/refresh)
-/

/-- A JavaScript object is modelled as an association list from string keys to
string-serialized values; `List.lookup` returns the value of a key, mirroring
property access. -/
abbrev Json : Type := List (String × String)

/-- Key lookup in a JS object (first binding wins, as keys are unique in JS). -/
def jget (o : Json) (k : String) : Option String :=
  o.lookup k

/-- The JS object spread of prev under data: every key of `data` takes the
value from `data`, every other key keeps its value from `prev`. -/
def jmerge (prev data : Json) : Json :=
  prev.filter (fun p => (jget data p.1).isNone) ++ data

/-- JS `value || default` for (optional) strings: `undefined` and `""` are falsy. -/
def jsOr (v : Option String) (d : String) : String :=
  match v with
  | none => d
  | some m => if m = "" then d else m

/-- JS `value || default` for (optional) numbers: `undefined` and `0` are falsy. -/
def jsOrNum (v : Option Int) (d : Int) : Int :=
  match v with
  | none => d
  | some n => if n = 0 then d else n

/-- Structure `ProgressEntry` from `useReportStream.ts`. -/
structure ProgressEntry where
  message : String
  step : Int
  total_steps : Int
  task : Option String
  status : Option String
deriving DecidableEq

/-- The typed SSE frames of the stream protocol. The frame of type `"partial"`
is called `delta` here because its TypeScript name is a Lean keyword; `unknown`
stands for any frame whose `type` matches no branch of the handler. -/
inductive Frame where
  | progress (message : Option String) (step : Option Int) (total_steps : Option Int)
      (task : Option String) (status : Option String)
  | delta (data : Json)
  | complete (data : Json)
  | cancelled
  | error (message : Option String)
  | unknown (t : String)
deriving DecidableEq

/-- The client-side state held by `useReportStream`: the five `useState` cells
plus `streamOpen`, which models whether the `EventSource` is still open
(`es.close()` sets it to false, after which the browser delivers no frames). -/
structure ClientState where
  report : Option Json
  progress : List ProgressEntry
  isComplete : Bool
  isCancelled : Bool
  error : Option String
  streamOpen : Bool
deriving DecidableEq

/-- Initial hook state: all cells empty, stream just opened. -/
def initState : ClientState :=
  { report := none, progress := [], isComplete := false, isCancelled := false,
    error := none, streamOpen := true }

/-- The body of `es.onmessage` in `useReportStream.ts`, one frame at a time.
Progress frames are appended with the JS `||` defaults (`""`, `0`, `8`);
`delta` spreads the frame data over the previous report (`prev` or, when the
report is still null, the empty object);
`complete`, `cancelled` and `error` update their cell and close the stream. -/
def handleFrame (s : ClientState) (f : Frame) : ClientState :=
  match f with
  | .progress m st ts ta stat =>
      { s with progress := s.progress ++
          [{ message := jsOr m "", step := jsOrNum st 0, total_steps := jsOrNum ts 8,
             task := ta, status := stat }] }
  | .delta d => { s with report := some (jmerge (s.report.getD []) d) }
  | .complete d => { s with report := some d, isComplete := true, streamOpen := false }
  | .cancelled => { s with isCancelled := true, streamOpen := false }
  | .error m => { s with error := some (jsOr m "An error occurred"), streamOpen := false }
  | .unknown _ => s

/-- Frame delivery: a closed `EventSource` dispatches no message events, so a
frame received after the stream closed leaves the state untouched. -/
def consume (s : ClientState) (f : Frame) : ClientState :=
  if s.streamOpen then handleFrame s f else s

/-- The three terminal frame types, on which the handler calls `es.close()`. -/
def isTerminal (f : Frame) : Bool :=
  match f with
  | .complete _ => true
  | .cancelled => true
  | .error _ => true
  | _ => false

/-- The `cancel` closure of `useReportStream.ts`: it closes the stream and sets
`isCancelled` before issuing the backend request; the request's failure
(`backendFails`) is swallowed by the empty `catch` block, so the resulting
state does not depend on it. -/
def cancel (s : ClientState) (backendFails : Bool) : ClientState :=
  { s with streamOpen := false, isCancelled := true }

/-- The progress entry a frame contributes, if any (only `progress` frames do). -/
def progressEntryOfFrame (f : Frame) : Option ProgressEntry :=
  match f with
  | .progress m st ts ta stat =>
      some { message := jsOr m "", step := jsOrNum st 0, total_steps := jsOrNum ts 8,
             task := ta, status := stat }
  | _ => none

/-- The entries contributed by a sequence of frames, in arrival order. -/
def progressEntries (fs : List Frame) : List ProgressEntry :=
  fs.filterMap progressEntryOfFrame

/-- Running the stream consumer over a whole frame sequence from the initial
hook state. -/
def runStream (fs : List Frame) : ClientState :=
  fs.foldl consume initState

/-- Function `latestMessage` from `ProgressStream.tsx`: the message of the last progress
entry, or `"Starting..."` when none arrived yet. -/
def latestMessage (progress : List ProgressEntry) : String :=
  match progress.getLast? with
  | none => "Starting..."
  | some e => e.message

/-- Structure `FakeReport` as typed in `useReportStream.ts`. -/
structure FakeReport where
  total_reviews : Nat
  flagged_count : Nat
  fake_percentage : ℚ
  flagged_ids : List String
  risk_level : String
deriving DecidableEq

/-- Modelled from the spec: the backend Fake-Review Detector is not under
`src/`, so the risk thresholds follow §4.5 literally: `risk_level = low` if
`fake_percentage < 10`, `medium` if `< 25`, `high` otherwise. -/
def riskLevel (fakePercentage : ℚ) : String :=
  if fakePercentage < 10 then "low"
  else if fakePercentage < 25 then "medium"
  else "high"

/-- Modelled from the spec: the fake report assembled from totals, with
`fake_percentage = flagged_count / total_reviews × 100` (§4.5). -/
def mkFakeReport (total flagged : Nat) (ids : List String) : FakeReport :=
  let p : ℚ := (flagged : ℚ) / (total : ℚ) * 100
  { total_reviews := total, flagged_count := flagged, fake_percentage := p,
    flagged_ids := ids, risk_level := riskLevel p }

/-- Map `riskColors` from `ScoreCard.tsx`, from risk level to CSS class. -/
def riskColors (risk : String) : Option String :=
  if risk = "low" then some "bg-green-100 text-green-700 border-green-200"
  else if risk = "medium" then some "bg-yellow-100 text-yellow-700 border-yellow-200"
  else if risk = "high" then some "bg-red-100 text-red-700 border-red-200"
  else none

/-- Structure `DriftReport` as typed in `useReportStream.ts`; a month is a `"YYYY-MM"`
string and sentiment a rational in `[0,1]`. -/
structure DriftReport where
  monthly_sentiment : List (String × ℚ)
  change_points : List String
  trend : String
deriving DecidableEq

/-- Modelled from the spec: the delta threshold of the trend classification of
§4.6 is a configuration constant; the exact value is not pinned by the spec. -/
def trendDelta : ℚ := 1 / 10

/-- Modelled from the spec: §4.6 trend classification — compare the mean of the
earliest third of the monthly series against the mean of the latest third;
above `trendDelta` in either direction gives improving/declining, else stable. -/
def classifyTrend (monthly : List (String × ℚ)) : String :=
  let n := monthly.length
  let third := max 1 (n / 3)
  let vals := monthly.map Prod.snd
  let early := vals.take third
  let late := vals.drop (n - third)
  let meanEarly := early.sum / (early.length : ℚ)
  let meanLate := late.sum / (late.length : ℚ)
  if meanLate - meanEarly > trendDelta then "improving"
  else if meanEarly - meanLate > trendDelta then "declining"
  else "stable"

/-- Modelled from the spec: the backend Drift Detector (§4.6) is not under
`src/`. Fewer than 2 populated months returns an empty monthly list and trend
`"stable"` without invoking the detection algorithm; otherwise the monthly
series is kept, the change-point procedure (PELT, abstracted here as the
`changepointAlgo` parameter) runs, and the trend is classified per §4.6. -/
def detectDrift (changepointAlgo : List (String × ℚ) → List String)
    (monthly : List (String × ℚ)) : DriftReport :=
  if monthly.length < 2 then
    { monthly_sentiment := [], change_points := [], trend := "stable" }
  else
    { monthly_sentiment := monthly, change_points := changepointAlgo monthly,
      trend := classifyTrend monthly }

/-- The two render outcomes of `SentimentTimeline.tsx`: the fallback block, or
the chart with its trend badge and change-point count. -/
inductive TimelineView where
  | noData
  | chart (trend : String) (changePointCount : Nat)
deriving DecidableEq

/-- Component `SentimentTimeline.tsx`: a monthly series of length below 2 renders the
fallback `"Not enough data for timeline"`; otherwise the chart is rendered. -/
def sentimentTimelineView (monthly : List (String × ℚ)) (changePoints : List String)
    (trend : String) : TimelineView :=
  if monthly.length < 2 then TimelineView.noData
  else TimelineView.chart trend changePoints.length

/-- The drawing effect of `SentimentTimeline.tsx` returns early (draws nothing)
when `monthly.length < 2`. -/
def timelineDraws (monthly : List (String × ℚ)) : Bool :=
  if monthly.length < 2 then false else true

/-- Structure `Cluster` as typed in `useReportStream.ts`. -/
structure Cluster where
  cluster_id : Int
  theme : String
  review_count : Int
  sentiment : String
  top_quotes : List String
deriving DecidableEq

/-- Modelled from the spec: the backend Theme Clusterer (§4.7) is not under
`src/`. Fewer than 10 reviews skips clustering entirely and yields an empty
cluster list; the embedding/UMAP/HDBSCAN pipeline itself is abstracted as the
`algo` parameter. -/
def clusterReviews (algo : List String → List Cluster) (reviews : List String) :
    List Cluster :=
  if reviews.length < 10 then [] else algo reviews

/-- Report page `report/[jobId]/page.tsx`: the themes section is rendered iff
`(report.clusters?.length ?? 0) > 0`. -/
def showThemeSection (clusters : Option (List Cluster)) : Bool :=
  match clusters with
  | none => decide (0 < 0)
  | some l => decide (0 < l.length)

/-- Component `ThemeClusters.tsx`: `[...clusters].sort((a, b) => b.review_count -
a.review_count)` — a copy of the input, stably sorted by `review_count`
descending. -/
def sortClusters (clusters : List Cluster) : List Cluster :=
  clusters.mergeSort (fun a b => decide (b.review_count ≤ a.review_count))

/-- The render outcomes of `RatingDistribution.tsx`: the no-data fallback, or
one row `(star, count, pct)` per star. -/
inductive RatingView where
  | noData
  | rows (rows : List (Nat × Nat × Int))
deriving DecidableEq

/-- Component `RatingDistribution.tsx`: the total is the sum of all values of the
distribution record. -/
def totalOf (distribution : List (String × Nat)) : Nat :=
  (distribution.map Prod.snd).sum

/-- Lookup `distribution[String(star)] ?? 0` from `RatingDistribution.tsx`. -/
def starCount (distribution : List (String × Nat)) (star : Nat) : Nat :=
  (distribution.lookup (toString star)).getD 0

/-- Component `RatingDistribution.tsx`: when the total is 0 the fallback is rendered and
no division happens; otherwise each star 5..1 gets a row with its count and
`Math.round((count / total) * 100)`. -/
def ratingDistributionView (distribution : List (String × Nat)) : RatingView :=
  let total := totalOf distribution
  if total = 0 then RatingView.noData
  else RatingView.rows ([5, 4, 3, 2, 1].map (fun star =>
    let count := starCount distribution star
    (star, count, round ((count : ℚ) / (total : ℚ) * 100))))

/-- The body of the analyze request both pages POST to `/api/analyze`. -/
structure AnalyzeRequest where
  query : String
  use_cache : Bool
deriving DecidableEq

/-- JS `String.prototype.trim`: strip leading and trailing whitespace. -/
def jsTrim (s : String) : String :=
  String.mk
    (((s.data.dropWhile Char.isWhitespace).reverse.dropWhile Char.isWhitespace).reverse)

/-- Handler `handleSubmit` of the home page: trims the query, bails out on an empty
result (JS falsiness of `""`), and otherwise posts with `use_cache: true`. -/
def homeSubmit (q : String) : Option AnalyzeRequest :=
  let trimmed := jsTrim q
  if trimmed = "" then none else some { query := trimmed, use_cache := true }

/-- Handler `handleRefresh` of `report/[jobId]/page.tsx`: bails out when the report has
no (or an empty, hence falsy) product name or a refresh is in flight, and
otherwise posts the product name with `use_cache: false`. -/
def handleRefresh (productName : Option String) (isRefreshing : Bool) :
    Option AnalyzeRequest :=
  match productName with
  | none => none
  | some p =>
      if p = "" ∨ isRefreshing = true then none
      else some { query := p, use_cache := false }

theorem jget_cons (pk pv : String) (a : Json) (k : String) :
    jget ((pk, pv) :: a) k = if k = pk then some pv else jget a k := by
  by_cases h : k = pk
  · subst h
    simp [jget]
  · have hb : (k == pk) = false := beq_eq_false_iff_ne.mpr h
    simp [jget, List.lookup_cons, hb, h]

theorem jget_jmerge (a b : Json) (k : String) :
    jget (jmerge a b) k = (jget b k).or (jget a k) := by
  induction a with
  | nil =>
      show jget b k = (jget b k).or none
      cases jget b k <;> rfl
  | cons p a ih =>
      rcases p with ⟨pk, pv⟩
      by_cases hp : (jget b pk).isNone = true
      · have hstep : jmerge ((pk, pv) :: a) b = (pk, pv) :: jmerge a b := by
          unfold jmerge
          rw [List.filter_cons, if_pos (by simpa using hp)]
          rfl
        rw [hstep, jget_cons, jget_cons]
        by_cases hk : k = pk
        · subst hk
          rw [if_pos rfl, if_pos rfl,
            show jget b k = none from Option.isNone_iff_eq_none.mp hp]
          rfl
        · rw [if_neg hk, if_neg hk]
          exact ih
      · have hstep : jmerge ((pk, pv) :: a) b = jmerge a b := by
          unfold jmerge
          rw [List.filter_cons, if_neg (by simpa using hp)]
        rw [hstep, ih, jget_cons]
        by_cases hk : k = pk
        · subst hk
          rw [if_pos rfl]
          rcases h : jget b k with _ | v
          · rw [h, Option.isNone_iff_eq_none.mpr rfl] at hp
            exact absurd rfl hp
          · rfl
        · rw [if_neg hk]

theorem consume_closed (s : ClientState) (f : Frame) (h : s.streamOpen = false) :
    consume s f = s := by
  unfold consume
  rw [h]
  rfl

theorem consume_open (s : ClientState) (f : Frame) (h : s.streamOpen = true) :
    consume s f = handleFrame s f := by
  unfold consume
  rw [h]
  rfl

theorem handleFrame_nonterminal (s : ClientState) (f : Frame)
    (hf : isTerminal f = false) :
    (handleFrame s f).streamOpen = s.streamOpen ∧
    (handleFrame s f).progress = s.progress ++ (progressEntryOfFrame f).toList := by
  cases f <;> simp [isTerminal] at hf ⊢ <;>
    simp [handleFrame, progressEntryOfFrame, Option.toList]

theorem foldl_consume_open (fs : List Frame) (s : ClientState)
    (hs : s.streamOpen = true) (h : ∀ f ∈ fs, isTerminal f = false) :
    (List.foldl consume s fs).progress = s.progress ++ progressEntries fs ∧
    (List.foldl consume s fs).streamOpen = true := by
  induction fs generalizing s with
  | nil => exact ⟨by simp [progressEntries], hs⟩
  | cons f fs ih =>
      have hf : isTerminal f = false := h f (List.mem_cons_self f fs)
      have hrest : ∀ g ∈ fs, isTerminal g = false :=
        fun g hg => h g (List.mem_cons_of_mem f hg)
      have hH := handleFrame_nonterminal s f hf
      have hopen : (handleFrame s f).streamOpen = true := by rw [hH.1, hs]
      have hrec := ih (handleFrame s f) hopen hrest
      constructor
      · show (List.foldl consume (consume s f) fs).progress = _
        rw [consume_open s f hs, hrec.1, hH.2]
        unfold progressEntries
        rw [List.filterMap_cons]
        cases hE : progressEntryOfFrame f <;> simp [Option.toList, hE]
      · show (List.foldl consume (consume s f) fs).streamOpen = true
        rw [consume_open s f hs]
        exact hrec.2

/-- The state a terminal frame leaves behind: stream closed, and every further
frame leaves the whole state unchanged. -/
def StreamClosedSpec (s : ClientState) : Prop :=
  s.streamOpen = false ∧ ∀ g : Frame, consume s g = s

/-- C2: receiving a terminal frame (`complete`, `cancelled` or `error`) closes
the event stream, and afterwards no received frame changes the report,
progress list, or completion/cancellation/error state. -/
theorem terminalFrameClosesAndFreezes (s : ClientState) (f : Frame)
    (hf : isTerminal f = true) : StreamClosedSpec (consume s f) := by
  by_cases hs : s.streamOpen = true
  · have hcl : (handleFrame s f).streamOpen = false := by
      cases f <;> simp [isTerminal] at hf <;> simp [handleFrame]
    rw [consume_open s f hs]
    exact ⟨hcl, fun g => consume_closed _ g hcl⟩
  · have hs' : s.streamOpen = false := by
      cases hx : s.streamOpen
      · rfl
      · exact absurd hx hs
    rw [consume_closed s f hs']
    exact ⟨hs', fun g => consume_closed s g hs'⟩

theorem terminalFrameClosesAndFreezes_witness :
    StreamClosedSpec (consume initState Frame.cancelled) :=
  terminalFrameClosesAndFreezes initState Frame.cancelled rfl

/-- C3: invoking cancel marks the job cancelled and closes its stream, whether
or not the backend cancellation request fails, and invoking cancel again
leaves the cancelled state unchanged. -/
theorem cancelAlwaysSucceedsIdempotent (s : ClientState) (b c : Bool) :
    (cancel s b).isCancelled = true ∧ (cancel s b).streamOpen = false ∧
    cancel (cancel s b) c = cancel s b :=
  ⟨rfl, rfl, rfl⟩

/-- The effect of a `"partial"` frame (incremental fill) and a `"complete"`
frame (full replacement, job frozen) on an open stream. -/
def FrameUpdateSpec (s : ClientState) (d : Json) : Prop :=
  (∀ k v, jget d k = some v →
    jget ((consume s (Frame.delta d)).report.getD []) k = some v) ∧
  (∀ k, jget d k = none →
    jget ((consume s (Frame.delta d)).report.getD []) k = jget (s.report.getD []) k) ∧
  (consume s (Frame.delta d)).progress = s.progress ∧
  (consume s (Frame.delta d)).isComplete = s.isComplete ∧
  (consume s (Frame.delta d)).isCancelled = s.isCancelled ∧
  (consume s (Frame.delta d)).error = s.error ∧
  (consume s (Frame.delta d)).streamOpen = true ∧
  (consume s (Frame.complete d)).report = some d ∧
  (consume s (Frame.complete d)).isComplete = true ∧
  (consume s (Frame.complete d)).streamOpen = false

/-- C4: a `"partial"` frame updates exactly the report fields present in the
frame data, keeps every other previously received field, and touches nothing
else; a `"complete"` frame replaces the report wholesale, marks the job
complete and closes (freezes) the stream. -/
theorem deltaFillsCompleteReplaces (s : ClientState) (d : Json)
    (hs : s.streamOpen = true) : FrameUpdateSpec s d := by
  unfold FrameUpdateSpec
  rw [consume_open s (Frame.delta d) hs, consume_open s (Frame.complete d) hs]
  refine ⟨?_, ?_, rfl, rfl, rfl, rfl, hs, rfl, rfl, rfl⟩
  · intro k v hkv
    show jget (jmerge (s.report.getD []) d) k = some v
    rw [jget_jmerge, hkv]
    rfl
  · intro k hk
    show jget (jmerge (s.report.getD []) d) k = _
    rw [jget_jmerge, hk]
    rfl

theorem deltaFillsCompleteReplaces_witness :
    FrameUpdateSpec initState [("overall_score", "7")] :=
  deltaFillsCompleteReplaces initState [("overall_score", "7")] rfl

/-- Progress delivery on an open stream: the progress list is exactly the
progress frames received so far, in order, and the displayed latest message is
that of the last received progress frame. -/
def OrderedProgressSpec (fs : List Frame) : Prop :=
  (runStream fs).progress = progressEntries fs ∧
  (∀ gs m st ts ta stat, fs = gs ++ [Frame.progress m st ts ta stat] →
    latestMessage (runStream fs).progress = jsOr m "")

/-- C7: each progress frame is appended at the end of the progress list, no
earlier entry is reordered or dropped, so the list equals the sequence of
progress frames received so far and the latest displayed message is that of
the last received frame. -/
theorem progressAppendedInOrder (fs : List Frame)
    (h : ∀ f ∈ fs, isTerminal f = false) : OrderedProgressSpec fs := by
  have hmain := foldl_consume_open fs initState rfl h
  have h1 : (runStream fs).progress = progressEntries fs := by
    rw [runStream, hmain.1]
    rfl
  refine ⟨h1, ?_⟩
  intro gs m st ts ta stat hfs
  rw [h1, hfs, progressEntries, List.filterMap_append]
  have h2 : List.filterMap progressEntryOfFrame [Frame.progress m st ts ta stat] =
      [{ message := jsOr m "", step := jsOrNum st 0, total_steps := jsOrNum ts 8,
         task := ta, status := stat }] := rfl
  rw [h2, latestMessage, List.getLast?_concat]

theorem progressAppendedInOrder_witness :
    OrderedProgressSpec
      [Frame.progress (some "Scraping Amazon") (some 2) (some 8) none none] :=
  progressAppendedInOrder
    [Frame.progress (some "Scraping Amazon") (some 2) (some 8) none none]
    (by decide)

/-- C1 counterexample: in the 50-reviews/5-flagged scenario the computed
`fake_percentage` is exactly 10, which under the stated thresholds
(`low` iff `< 10`) yields `risk_level = "medium"`, not `"low"`. -/
theorem fakeReportScenarioNotLow :
    (mkFakeReport 50 5 []).fake_percentage = 10 ∧
    (mkFakeReport 50 5 []).risk_level = "medium" ∧
    ¬(mkFakeReport 50 5 []).risk_level = "low" := by
  have hp : ((5 : Nat) : ℚ) / ((50 : Nat) : ℚ) * 100 = 10 := by norm_num
  have h1 : (mkFakeReport 50 5 []).fake_percentage = 10 := by
    show ((5 : Nat) : ℚ) / ((50 : Nat) : ℚ) * 100 = 10
    exact hp
  have h2 : (mkFakeReport 50 5 []).risk_level = "medium" := by
    show riskLevel (((5 : Nat) : ℚ) / ((50 : Nat) : ℚ) * 100) = "medium"
    rw [hp]
    unfold riskLevel
    rw [if_neg (by norm_num), if_pos (by norm_num)]
  refine ⟨h1, h2, ?_⟩
  rw [h2]
  decide

/-- The fake-report thresholds as §4.5 states them, plus the corrected
50-reviews/5-flagged scenario outcome. -/
def FakeThresholdSpec (total flagged : Nat) (ids : List String) : Prop :=
  (mkFakeReport total flagged ids).fake_percentage =
      (flagged : ℚ) / (total : ℚ) * 100 ∧
  ((mkFakeReport total flagged ids).fake_percentage < 10 →
    (mkFakeReport total flagged ids).risk_level = "low") ∧
  (10 ≤ (mkFakeReport total flagged ids).fake_percentage →
    (mkFakeReport total flagged ids).fake_percentage < 25 →
    (mkFakeReport total flagged ids).risk_level = "medium") ∧
  (25 ≤ (mkFakeReport total flagged ids).fake_percentage →
    (mkFakeReport total flagged ids).risk_level = "high") ∧
  (riskColors (mkFakeReport total flagged ids).risk_level).isSome = true ∧
  (mkFakeReport 50 5 []).fake_percentage = 10 ∧
  (mkFakeReport 50 5 []).risk_level = "medium"

/-- C1 amended: `risk_level` is `"low"` if `fake_percentage` is below 10,
`"medium"` if below 25, `"high"` otherwise, with `fake_percentage =
flagged_count / total_reviews × 100`; the 50-reviews/5-flagged scenario gives
`fake_percentage = 10` and hence `risk_level = "medium"` (not `"low"`), and
every produced risk level has a color in `ScoreCard.riskColors`. -/
theorem fakeThresholds (total flagged : Nat) (ids : List String)
    (h : 0 < total) : FakeThresholdSpec total flagged ids := by
  have hfp : (mkFakeReport total flagged ids).fake_percentage =
      (flagged : ℚ) / (total : ℚ) * 100 := rfl
  have hrl : (mkFakeReport total flagged ids).risk_level =
      riskLevel ((flagged : ℚ) / (total : ℚ) * 100) := rfl
  have hsp : ((5 : Nat) : ℚ) / ((50 : Nat) : ℚ) * 100 = 10 := by norm_num
  refine ⟨hfp, ?_, ?_, ?_, ?_, ?_, ?_⟩
  · intro hlt
    rw [hfp] at hlt
    rw [hrl]
    unfold riskLevel
    rw [if_pos hlt]
  · intro hge hlt
    rw [hfp] at hge hlt
    rw [hrl]
    unfold riskLevel
    rw [if_neg (not_lt.mpr hge), if_pos hlt]
  · intro hge
    rw [hfp] at hge
    rw [hrl]
    unfold riskLevel
    rw [if_neg (not_lt.mpr (le_trans (by norm_num) hge)),
      if_neg (not_lt.mpr hge)]
  · rw [hrl]
    unfold riskLevel
    by_cases h1 : (flagged : ℚ) / (total : ℚ) * 100 < 10
    · rw [if_pos h1]
      rfl
    · rw [if_neg h1]
      by_cases h2 : (flagged : ℚ) / (total : ℚ) * 100 < 25
      · rw [if_pos h2]
        rfl
      · rw [if_neg h2]
        rfl
  · show ((5 : Nat) : ℚ) / ((50 : Nat) : ℚ) * 100 = 10
    exact hsp
  · show riskLevel (((5 : Nat) : ℚ) / ((50 : Nat) : ℚ) * 100) = "medium"
    rw [hsp]
    unfold riskLevel
    rw [if_neg (by norm_num), if_pos (by norm_num)]

theorem fakeThresholds_witness : FakeThresholdSpec 50 5 [] :=
  fakeThresholds 50 5 [] (by decide)

/-- The no-data behavior shared by the drift detector and the timeline. -/
def DriftGuardSpec (changepointAlgo : List (String × ℚ) → List String)
    (monthly : List (String × ℚ)) (cps : List String) (tr : String) : Prop :=
  detectDrift changepointAlgo monthly =
      { monthly_sentiment := [], change_points := [], trend := "stable" } ∧
  sentimentTimelineView monthly cps tr = TimelineView.noData ∧
  timelineDraws monthly = false

/-- C5: drift detection on fewer than 2 populated months yields an empty
monthly list and trend `"stable"` without error, and the timeline component
treats any monthly series of length below 2 as the no-data case, rendering the
fallback and drawing nothing. -/
theorem driftGuardBelowTwoMonths (changepointAlgo : List (String × ℚ) → List String)
    (monthly : List (String × ℚ)) (cps : List String) (tr : String)
    (h : monthly.length < 2) : DriftGuardSpec changepointAlgo monthly cps tr := by
  unfold DriftGuardSpec detectDrift sentimentTimelineView timelineDraws
  rw [if_pos h, if_pos h, if_pos h]
  exact ⟨rfl, rfl, rfl⟩

theorem driftGuardBelowTwoMonths_witness :
    DriftGuardSpec (fun _ => []) [("2024-01", 1/2)] [] "stable" :=
  driftGuardBelowTwoMonths (fun _ => []) [("2024-01", 1/2)] [] "stable" (by decide)

/-- The no-data behavior shared by the clusterer and the report page. -/
def ClusterGuardSpec (algo : List String → List Cluster)
    (reviews : List String) : Prop :=
  clusterReviews algo reviews = [] ∧
  showThemeSection (some (clusterReviews algo reviews)) = false

/-- C6: clustering on 9 or fewer reviews returns an empty cluster list without
error, and an empty cluster list makes the report page omit the themes section
rather than report an error. -/
theorem clusterGuardBelowTenReviews (algo : List String → List Cluster)
    (reviews : List String) (h : reviews.length ≤ 9) :
    ClusterGuardSpec algo reviews := by
  have h10 : reviews.length < 10 := Nat.lt_of_le_of_lt h (by decide)
  have he : clusterReviews algo reviews = [] := by
    unfold clusterReviews
    rw [if_pos h10]
  refine ⟨he, ?_⟩
  rw [he]
  rfl

theorem clusterGuardBelowTenReviews_witness :
    ClusterGuardSpec (fun _ => []) ["solid build", "great sound"] :=
  clusterGuardBelowTenReviews (fun _ => []) ["solid build", "great sound"]
    (by decide)

/-- C8: a submission from the home page always carries `use_cache = true`,
while a submission from the report page refresh button carries
`use_cache = false` for the report's product name, so a refresh bypasses the
report cache. -/
theorem homeCachesRefreshBypasses (q p : String) (b : Bool)
    (r₁ r₂ : AnalyzeRequest) (h1 : homeSubmit q = some r₁)
    (h2 : handleRefresh (some p) b = some r₂) :
    r₁.use_cache = true ∧ r₂.use_cache = false ∧ r₂.query = p := by
  have h1 : (if jsTrim q = "" then none
      else some { query := jsTrim q, use_cache := true } : Option AnalyzeRequest) =
      some r₁ := h1
  have h2 : (if p = "" ∨ b = true then none
      else some { query := p, use_cache := false } : Option AnalyzeRequest) =
      some r₂ := h2
  by_cases ht : jsTrim q = ""
  · rw [if_pos ht] at h1
    cases h1
  · rw [if_neg ht] at h1
    by_cases hc : p = "" ∨ b = true
    · rw [if_pos hc] at h2
      cases h2
    · rw [if_neg hc] at h2
      have e1 : r₁ = { query := jsTrim q, use_cache := true } :=
        (Option.some.inj h1).symm
      have e2 : r₂ = { query := p, use_cache := false } :=
        (Option.some.inj h2).symm
      rw [e1, e2]
      exact ⟨rfl, rfl, rfl⟩

theorem homeCachesRefreshBypasses_witness :
    ({ query := "iPhone 15", use_cache := true } : AnalyzeRequest).use_cache = true ∧
    ({ query := "iPhone 15", use_cache := false } : AnalyzeRequest).use_cache = false ∧
    ({ query := "iPhone 15", use_cache := false } : AnalyzeRequest).query = "iPhone 15" :=
  homeCachesRefreshBypasses "iPhone 15" "iPhone 15" false
    { query := "iPhone 15", use_cache := true }
    { query := "iPhone 15", use_cache := false }
    (by decide) (by decide)

/-- C9: the clusters rendered by `ThemeClusters` are a permutation of the
input list ordered by `review_count` descending; the input list itself is
untouched (`sortClusters` sorts a copy, the TypeScript spread `[...clusters]`). -/
theorem themeClustersSortedDescending (clusters : List Cluster) :
    List.Perm (sortClusters clusters) clusters ∧
    List.Sorted (fun a b => b.review_count ≤ a.review_count)
      (sortClusters clusters) := by
  constructor
  · exact List.mergeSort_perm clusters _
  · have h : List.Pairwise
        (fun a b : Cluster => decide (b.review_count ≤ a.review_count) = true)
        (sortClusters clusters) := by
      unfold sortClusters
      apply List.sorted_mergeSort
      · intro a b c h1 h2
        simp only [decide_eq_true_eq] at h1 h2 ⊢
        exact le_trans h2 h1
      · intro a b
        simp only [Bool.or_eq_true, decide_eq_true_eq]
        exact le_total b.review_count a.review_count
    exact h.imp (fun hab => by simpa using hab)

/-- C10: the total is the sum of all counts; a zero total renders the fallback
with no division; otherwise each star 1..5 gets its count and percentage
`round(100 × count / total)`, with a missing star key counted as 0. -/
theorem ratingDistributionGuarded (d : List (String × Nat)) :
    totalOf d = (d.map Prod.snd).sum ∧
    (totalOf d = 0 → ratingDistributionView d = RatingView.noData) ∧
    (totalOf d ≠ 0 → ratingDistributionView d =
      RatingView.rows ([5, 4, 3, 2, 1].map (fun star =>
        (star, starCount d star,
          round (100 * (starCount d star : ℚ) / (totalOf d : ℚ)))))) ∧
    (∀ star : Nat, d.lookup (toString star) = none → starCount d star = 0) := by
  refine ⟨rfl, ?_, ?_, ?_⟩
  · intro h0
    unfold ratingDistributionView
    rw [if_pos h0]
  · intro hne
    unfold ratingDistributionView
    rw [if_neg hne]
    congr 1
    apply List.map_congr_left
    intro star _
    show (star, starCount d star,
        round ((starCount d star : ℚ) / (totalOf d : ℚ) * 100)) = _
    have harg : (starCount d star : ℚ) / (totalOf d : ℚ) * 100 =
        100 * (starCount d star : ℚ) / (totalOf d : ℚ) := by
      rw [div_mul_eq_mul_div, mul_comm]
    rw [harg]
  · intro star hnone
    unfold starCount
    rw [hnone]
    rfl
